import Mathlib

/-!
Shallow embedding of the GraphQL resolvers of the Overray e-commerce
backend (src/graphql/resolvers.js): the product filter compiler, the
cart merge engine, the wishlist engine and the review upsert engine.

Modelling conventions:
* MongoDB ObjectIds, user ids and product ids are `String`.
* A JavaScript number-or-null value (the cart quantity) is `JsNum`;
  `JsNum.add` is JavaScript `+` on such values (`null` coerces to 0),
  `JsNum.falsy` is JavaScript falsiness (`null` and `0` are falsy).
* Thrown errors are `JsError`; a resolver that can throw returns
  `Except JsError α`.  Mutations take the document store as an explicit
  argument and return the store after the call together with the
  result, so a thrown error leaves the store unchanged.
* Mongoose collections are lists of documents; `findOne` is
  `List.find?`, `document.save()` replaces the first document with the
  same key (the one `findOne` returned) or inserts at the end.
-/

namespace Overray

/-- A JavaScript value that is either a number or `null`.  The cart
quantity argument defaults to `null` when not supplied
(`const { product_id, quantity = null } = args.products`). -/
inductive JsNum where
  | null : JsNum
  | num : Int → JsNum
deriving DecidableEq, Repr

/-- JavaScript `+` on number-or-null values: `null` coerces to `0`,
so `null + null = 0`, `n + null = n`. -/
def JsNum.add : JsNum → JsNum → JsNum
  | .null, .null => .num 0
  | .null, .num b => .num b
  | .num a, .null => .num a
  | .num a, .num b => .num (a + b)

/-- JavaScript falsiness on number-or-null values: `null` and `0`
are falsy (`!quantity` in the source). -/
def JsNum.falsy : JsNum → Bool
  | .null => true
  | .num n => n == 0

/-- Errors thrown by the resolvers: `GraphQLError` with message,
extension code and HTTP status, or a JavaScript `TypeError`. -/
inductive JsError where
  | graphQLError (message : String) (code : String) (status : Nat)
  | typeError (message : String)
deriving DecidableEq, Repr

/-- The error thrown by `checkAuthentication` when the context has no
user: code `UNAUTHENTICATED`, HTTP status 401. -/
def unauthenticatedError : JsError :=
  .graphQLError "You are not authorized to perform this action." "UNAUTHENTICATED" 401

/-- The authenticated identity carried in the GraphQL context
(`contextValue.user`); `none` means no identity. -/
structure Identity where
  _id : String
deriving DecidableEq, Repr

/-! ## Filter compiler (Query.products) -/

/-- The optional `sort` sub-object of a products filter request. -/
structure SortOption where
  field : String
  order : String
deriving DecidableEq, Repr

/-- A products filter request (GraphQL input object `args.filter`);
every field is optional, `none` models an absent (`undefined`) field. -/
structure ProductFilter where
  _id : Option String := none
  categories : Option (List String) := none
  size : Option String := none
  color : Option String := none
  minPrice : Option Int := none
  maxPrice : Option Int := none
  name : Option String := none
  limit : Option Int := none
  start : Option Int := none
  sort : Option SortOption := none
  code : Option String := none
  keywords : Option (List String) := none
deriving DecidableEq, Repr

/-- The `price` clause of a compiled filter: `$gte` / `$lte` bounds. -/
structure PriceClause where
  gte : Option Int := none
  lte : Option Int := none
deriving DecidableEq, Repr

/-- The compiled MongoDB predicate built by the `products` resolver:
each field is `none` when the resolver adds no clause for it. -/
structure CompiledFilter where
  _id : Option String := none
  name : Option String := none
  size : Option String := none
  color : Option String := none
  code : Option String := none
  categories : Option (List String) := none
  keywords : Option (List String) := none
  price : Option PriceClause := none
deriving DecidableEq, Repr

/-- JavaScript truthiness of an optional string (`if (name) ...`):
absent and empty strings are falsy. -/
def truthyStr : Option String → Bool
  | none => false
  | some s => !(s == "")

/-- The filter-object construction of the `products` resolver
(resolvers.js lines 47-90).  ObjectId coercion
(`new mongoose.Types.ObjectId(id)`) is modelled as the identity on the
id string. -/
def buildFilter (f : ProductFilter) : CompiledFilter :=
  { _id := if truthyStr f._id then f._id else none,
    name := if truthyStr f.name then f.name else none,
    size := if truthyStr f.size then f.size else none,
    color := if truthyStr f.color then f.color else none,
    code := if truthyStr f.code then f.code else none,
    categories :=
      match f.categories with
      | some cs => if cs.length > 0 then some cs else none
      | none => none,
    keywords :=
      match f.keywords with
      | some ks => if ks.length > 0 then some ks else none
      | none => none,
    price :=
      if f.minPrice.isSome || f.maxPrice.isSome then
        some { gte := f.minPrice, lte := f.maxPrice }
      else none }

/-- The read issued by the `products` resolver: compiled predicate,
`.limit`, `.skip` and `.sort` arguments. -/
structure ProductsQuery where
  filter : CompiledFilter
  limit : Int
  start : Int
  sort : List (String × Int)
deriving DecidableEq, Repr

/-- The sort-object construction of the `products` resolver (lines
92-95): `sort[sortOption.field] = order === "asc" ? 1 : -1`. -/
def compileSort (f : ProductFilter) : List (String × Int) :=
  match f.sort with
  | some s => [(s.field, if s.order == "asc" then 1 else -1)]
  | none => []

/-- The `products` resolver (resolvers.js lines 26-121).  `limit` and
`start` are declared `const` (10 and 0); when the filter supplies a
`limit` or `start` value the resolver assigns to the `const` binding,
which throws a `TypeError` at runtime. -/
def products (argsFilter : Option ProductFilter) : Except JsError ProductsQuery :=
  match argsFilter with
  | none => .ok ⟨{}, 10, 0, []⟩
  | some f =>
    match f.limit with
    | some _ => .error (.typeError "Assignment to constant variable.")
    | none =>
      match f.start with
      | some _ => .error (.typeError "Assignment to constant variable.")
      | none => .ok ⟨buildFilter f, 10, 0, compileSort f⟩

/-- A product document (the fields the compiled predicate inspects). -/
structure Product where
  _id : String
  name : String
  code : String
  size : String
  color : String
  price : Int
  categories : List String
  keywords : List String
deriving DecidableEq, Repr

/-- Case-insensitive pattern match (`$regex` with option `i`); for the
plain strings used here this is case-insensitive substring search. -/
def regexMatchesI (pat s : String) : Bool :=
  decide (List.IsInfix pat.toLower.data s.toLower.data)

/-- MongoDB `$in` clause semantics on an array-valued field: absent
clause matches everything, a present clause matches when some element
of the array stored in the document is in the given set. -/
def inClause : Option (List String) → List String → Bool
  | none, _ => true
  | some vs, field => field.any (fun c => vs.contains c)

/-- MongoDB semantics of the compiled `price` clause: inclusive
`$gte` / `$lte` bounds, each optional. -/
def priceClauseHolds : Option PriceClause → Int → Bool
  | none, _ => true
  | some pc, price =>
    (match pc.gte with | none => true | some a => decide (a ≤ price)) &&
    (match pc.lte with | none => true | some b => decide (price ≤ b))

/-- MongoDB semantics of a compiled filter against a product document. -/
def matchesFilter (fil : CompiledFilter) (p : Product) : Bool :=
  (match fil._id with | none => true | some v => p._id == v) &&
  (match fil.name with | none => true | some pat => regexMatchesI pat p.name) &&
  (match fil.size with | none => true | some v => p.size == v) &&
  (match fil.color with | none => true | some v => p.color == v) &&
  (match fil.code with | none => true | some v => p.code == v) &&
  inClause fil.categories p.categories &&
  inClause fil.keywords p.keywords &&
  priceClauseHolds fil.price p.price

/-! ## Document store and mutations -/

/-- The `args.address` input of the `addAddress` mutation. -/
structure AddressInput where
  name : String
  address_line_1 : String
  address_line_2 : String
  city : String
  pincode : String
  state : String
  country : String
  email : String
  phone_number : String
deriving DecidableEq, Repr

/-- An Address document: the input fields plus the id of the owning
user, set by the resolver from the context. -/
structure Address extends AddressInput where
  user_id : String
deriving DecidableEq, Repr

/-- Modelled from the spec: the Mongoose schema module
(`src/database/schemas/index.js`) is not among the sources, so the
document shapes follow §3 of the spec; ids are plain strings, and the
comparison `x.productId === product_id` in the resolver is string
equality, as the line-item merge semantics of the spec requires.  A line
item of a cart: `{ productId, quantity }`.  The quantity is a
JavaScript value that can be `null` (see `addProductToCart`). -/
structure CartItem where
  productId : String
  quantity : JsNum
deriving DecidableEq, Repr

/-- A Cart document: one per user, with a list of line items. -/
structure Cart where
  user_id : String
  products : List CartItem
deriving DecidableEq, Repr

/-- A Wishlist document: one per user, with a list of product ids. -/
structure Wishlist where
  user_id : String
  products : List String
deriving DecidableEq, Repr

/-- A Review document (collection `product_review`). -/
structure Review where
  user_id : String
  product_id : String
  review : String
  score : Int
deriving DecidableEq, Repr

/-- The document store: one list per collection the mutations touch. -/
structure Store where
  addresses : List Address
  carts : List Cart
  wishlists : List Wishlist
  reviews : List Review
deriving DecidableEq, Repr

/-- Mongoose `document.save()` for a cart obtained from
`findOne({user_id})` (or freshly constructed): replace the first cart
with the same `user_id`, or insert at the end when there is none. -/
def saveCart : List Cart → Cart → List Cart
  | [], c => [c]
  | x :: xs, c => if x.user_id == c.user_id then c :: xs else x :: saveCart xs c

/-- `save()` for a wishlist, keyed by `user_id` like `saveCart`. -/
def saveWishlist : List Wishlist → Wishlist → List Wishlist
  | [], w => [w]
  | x :: xs, w => if x.user_id == w.user_id then w :: xs else x :: saveWishlist xs w

/-- The `findOne({user_id, product_id})` predicate of `addProductReview`. -/
def matchUP (uid pid : String) (x : Review) : Bool :=
  x.user_id == uid && x.product_id == pid

/-- `save()` for a review obtained from
`findOne({user_id, product_id})`: replace the first review with the
same `(user_id, product_id)` pair, or insert at the end. -/
def saveReview : List Review → Review → List Review
  | [], r => [r]
  | x :: xs, r => if matchUP r.user_id r.product_id x then r :: xs else x :: saveReview xs r

/-- `cart.products[existingProductIndex].quantity += quantity`: add
`q` (JavaScript `+`) to the quantity of the first line item whose
`productId` is `pid`. -/
def incrementFirst (pid : String) (q : JsNum) : List CartItem → List CartItem
  | [] => []
  | x :: xs =>
    if x.productId == pid then { x with quantity := x.quantity.add q } :: xs
    else x :: incrementFirst pid q xs

/-- `checkAuthentication` (resolvers.js lines 5-16): throws the
`UNAUTHENTICATED` GraphQLError when the context carries no user. -/
def checkAuthentication : Option Identity → Except JsError Unit
  | none => .error unauthenticatedError
  | some _ => .ok ()

/-- The `addAddress` mutation (lines 165-170): requires
authentication, stamps the input with the `user_id` of the caller,
creates the document. -/
def addAddress (ctx : Option Identity) (address : AddressInput) (st : Store) :
    Store × Except JsError Address :=
  match ctx with
  | none => (st, .error unauthenticatedError)
  | some u =>
    let a : Address := ⟨address, u._id⟩
    ({ st with addresses := st.addresses ++ [a] }, .ok a)

/-- The `addProductToCart` mutation (lines 171-201).  With an existing
cart: increment the first line item matching `product_id`, else push
`{ productId, quantity }` (note: the quantity is pushed as given, so a
missing quantity is pushed as `null`).  With no cart: create one whose
single line item has quantity `1` when the given quantity is falsy. -/
def addProductToCart (ctx : Option Identity) (product_id : String) (quantity : JsNum)
    (st : Store) : Store × Except JsError Cart :=
  match ctx with
  | none => (st, .error unauthenticatedError)
  | some u =>
    match st.carts.find? (fun c => c.user_id == u._id) with
    | some cart =>
      let newProducts :=
        if cart.products.any (fun x => x.productId == product_id) then
          incrementFirst product_id quantity cart.products
        else
          cart.products ++ [⟨product_id, quantity⟩]
      let cart2 : Cart := { cart with products := newProducts }
      ({ st with carts := saveCart st.carts cart2 }, .ok cart2)
    | none =>
      let cart2 : Cart := ⟨u._id, [⟨product_id, if quantity.falsy then .num 1 else quantity⟩]⟩
      ({ st with carts := saveCart st.carts cart2 }, .ok cart2)

/-- The `removeProductFromCart` mutation (lines 202-209):
`findOneAndUpdate` with `$pull` on `products.productId` and
`new: true`; returns `null` (here `none`) when the user has no cart. -/
def removeProductFromCart (ctx : Option Identity) (product_id : String) (st : Store) :
    Store × Except JsError (Option Cart) :=
  match ctx with
  | none => (st, .error unauthenticatedError)
  | some u =>
    match st.carts.find? (fun c => c.user_id == u._id) with
    | some cart =>
      let cart2 : Cart :=
        { cart with products := cart.products.filter (fun x => !(x.productId == product_id)) }
      ({ st with carts := saveCart st.carts cart2 }, .ok (some cart2))
    | none => (st, .ok none)

/-- The `addProductToWishlist` mutation (lines 210-226): create a
wishlist `[product_id]` when none exists, else append `product_id` to
the list (no membership check). -/
def addProductToWishlist (ctx : Option Identity) (product_id : String) (st : Store) :
    Store × Except JsError Wishlist :=
  match ctx with
  | none => (st, .error unauthenticatedError)
  | some u =>
    match st.wishlists.find? (fun w => w.user_id == u._id) with
    | none =>
      let w : Wishlist := ⟨u._id, [product_id]⟩
      ({ st with wishlists := saveWishlist st.wishlists w }, .ok w)
    | some wishlist =>
      let w : Wishlist := { wishlist with products := wishlist.products ++ [product_id] }
      ({ st with wishlists := saveWishlist st.wishlists w }, .ok w)

/-- The `removeProductFromWishlist` mutation (lines 227-234):
`findOneAndUpdate` with `$pull` on `products` and `new: true`. -/
def removeProductFromWishlist (ctx : Option Identity) (product_id : String) (st : Store) :
    Store × Except JsError (Option Wishlist) :=
  match ctx with
  | none => (st, .error unauthenticatedError)
  | some u =>
    match st.wishlists.find? (fun w => w.user_id == u._id) with
    | some wishlist =>
      let w : Wishlist :=
        { wishlist with products := wishlist.products.filter (fun x => !(x == product_id)) }
      ({ st with wishlists := saveWishlist st.wishlists w }, .ok (some w))
    | none => (st, .ok none)

/-- The `addProductReview` mutation (lines 235-257): find the review
for `(user_id, product_id)`; create it when absent, else overwrite its
`review` and `score` fields and save. -/
def addProductReview (ctx : Option Identity) (review : String) (score : Int)
    (product_id : String) (st : Store) : Store × Except JsError Review :=
  match ctx with
  | none => (st, .error unauthenticatedError)
  | some u =>
    match st.reviews.find? (matchUP u._id product_id) with
    | none =>
      let r : Review := ⟨u._id, product_id, review, score⟩
      ({ st with reviews := st.reviews ++ [r] }, .ok r)
    | some r0 =>
      let r : Review := { r0 with review := review, score := score }
      ({ st with reviews := saveReview st.reviews r }, .ok r)

/-! ## Helper lemmas about the keyed save operations -/

theorem find?_saveCart (l : List Cart) (c : Cart) (uid : String) (hc : c.user_id = uid) :
    (saveCart l c).find? (fun x => x.user_id == uid) = some c := by
  subst hc
  induction l with
  | nil => simp [saveCart]
  | cons x xs ih =>
    by_cases h : (x.user_id == c.user_id) = true
    · simp [saveCart, h, List.find?_cons]
    · rw [Bool.not_eq_true] at h
      simp only [saveCart, h, Bool.false_eq_true, if_false]
      rw [List.find?_cons]
      simp only [h]
      exact ih

theorem saveCart_self (l : List Cart) (c : Cart) (uid : String) (hc : c.user_id = uid)
    (h : l.find? (fun x => x.user_id == uid) = some c) : saveCart l c = l := by
  subst hc
  induction l with
  | nil => simp at h
  | cons x xs ih =>
    rw [List.find?_cons] at h
    by_cases hx : (x.user_id == c.user_id) = true
    · rw [hx] at h
      simp only [Option.some.injEq] at h
      subst h
      simp [saveCart, hx]
    · rw [Bool.not_eq_true] at hx
      rw [hx] at h
      simp only [saveCart, hx, Bool.false_eq_true, if_false]
      rw [ih h]

theorem find?_saveWishlist (l : List Wishlist) (w : Wishlist) (uid : String)
    (hw : w.user_id = uid) :
    (saveWishlist l w).find? (fun x => x.user_id == uid) = some w := by
  subst hw
  induction l with
  | nil => simp [saveWishlist]
  | cons x xs ih =>
    by_cases h : (x.user_id == w.user_id) = true
    · simp [saveWishlist, h, List.find?_cons]
    · rw [Bool.not_eq_true] at h
      simp only [saveWishlist, h, Bool.false_eq_true, if_false]
      rw [List.find?_cons]
      simp only [h]
      exact ih

theorem find?_saveReview (l : List Review) (r : Review) (uid pid : String)
    (h1 : r.user_id = uid) (h2 : r.product_id = pid) :
    (saveReview l r).find? (matchUP uid pid) = some r := by
  subst h1; subst h2
  induction l with
  | nil => simp [saveReview, matchUP]
  | cons x xs ih =>
    by_cases h : matchUP r.user_id r.product_id x = true
    · simp only [saveReview, h, if_true]
      rw [List.find?_cons]
      have hr : matchUP r.user_id r.product_id r = true := by simp [matchUP]
      simp [hr]
    · rw [Bool.not_eq_true] at h
      simp only [saveReview, h, Bool.false_eq_true, if_false]
      rw [List.find?_cons]
      simp only [h]
      exact ih

theorem countP_saveReview (l : List Review) (r : Review) (uid pid : String)
    (h1 : r.user_id = uid) (h2 : r.product_id = pid) :
    (saveReview l r).countP (matchUP uid pid) = max (l.countP (matchUP uid pid)) 1 := by
  subst h1; subst h2
  induction l with
  | nil => simp [saveReview, List.countP_cons, matchUP]
  | cons x xs ih =>
    by_cases h : matchUP r.user_id r.product_id x = true
    · simp only [saveReview, h, if_true]
      rw [List.countP_cons_of_pos (matchUP r.user_id r.product_id) xs (by simp [matchUP]),
        List.countP_cons_of_pos (matchUP r.user_id r.product_id) xs h]
      omega
    · rw [Bool.not_eq_true] at h
      simp only [saveReview, h, Bool.false_eq_true, if_false]
      rw [List.countP_cons_of_neg (matchUP r.user_id r.product_id) (saveReview xs r) (by simp [h]),
        List.countP_cons_of_neg (matchUP r.user_id r.product_id) xs (by simp [h]), ih]

/-! ## Claims about the filter compiler -/

/-- C2: whenever the filter request supplies a `limit` or a `start`
value, the `products` resolver assigns to a `const` binding and throws
a `TypeError`; the query completes only on the no-limit/no-start
path. -/
theorem C2_products_limit_start_throws (f : ProductFilter) :
    ((f.limit ≠ none ∨ f.start ≠ none) →
      products (some f) = .error (.typeError "Assignment to constant variable.")) ∧
    (f.limit = none → f.start = none → ∃ q, products (some f) = .ok q) := by
  constructor
  · intro h
    match hl : f.limit, hs : f.start with
    | some _, _ => simp [products, hl]
    | none, some _ => simp [products, hl, hs]
    | none, none => simp [hl, hs] at h
  · intro hl hs
    exact ⟨⟨buildFilter f, 10, 0, compileSort f⟩, by simp [products, hl, hs]⟩

/-- C2 witness: with `limit = 5` supplied the resolver throws, and
with neither `limit` nor `start` supplied it completes. -/
theorem C2_products_limit_start_throws_witness :
    products (some { limit := some 5 }) =
      .error (.typeError "Assignment to constant variable.") ∧
    ∃ q, products (some ({} : ProductFilter)) = .ok q :=
  ⟨(C2_products_limit_start_throws { limit := some 5 }).1 (by simp),
   (C2_products_limit_start_throws {}).2 rfl rfl⟩

/-- C6: a non-empty `categories` or `keywords` array compiles to a
set-membership (`$in`) clause on that field, while an empty array
contributes no clause at all — the compiled predicate equals the one
for an absent field. -/
theorem C6_in_clauses (f : ProductFilter) (cats kws : List String) :
    (cats ≠ [] → (buildFilter { f with categories := some cats }).categories = some cats) ∧
    (buildFilter { f with categories := some [] } = buildFilter { f with categories := none }) ∧
    (kws ≠ [] → (buildFilter { f with keywords := some kws }).keywords = some kws) ∧
    (buildFilter { f with keywords := some [] } = buildFilter { f with keywords := none }) ∧
    (∀ vs field, inClause (some vs) field = true ↔ ∃ c ∈ field, c ∈ vs) := by
  refine ⟨?_, ?_, ?_, ?_, ?_⟩
  · intro h
    simp [buildFilter, List.length_pos, h]
  · simp [buildFilter]
  · intro h
    simp [buildFilter, List.length_pos, h]
  · simp [buildFilter]
  · intro vs field
    simp [inClause, List.any_eq_true]

/-- C6 witness: `categories = ["c1"]` compiles to a membership clause
for `["c1"]`, the empty-array compilations coincide with the
absent-field ones, and the `$in` semantics holds on a sample list. -/
theorem C6_in_clauses_witness :
    (buildFilter { categories := some ["c1"] }).categories = some ["c1"] ∧
    buildFilter { categories := some [] } = buildFilter ({} : ProductFilter) ∧
    (buildFilter { keywords := some ["k1"] }).keywords = some ["k1"] ∧
    buildFilter { keywords := some [] } = buildFilter ({} : ProductFilter) ∧
    (inClause (some ["k1", "k2"]) ["k0", "k2"] = true ↔
      ∃ c ∈ ["k0", "k2"], c ∈ ["k1", "k2"]) := by
  refine ⟨(C6_in_clauses {} ["c1"] ["k1"]).1 (by decide),
    (C6_in_clauses {} ["c1"] ["k1"]).2.1,
    (C6_in_clauses {} ["c1"] ["k1"]).2.2.1 (by decide),
    (C6_in_clauses {} ["c1"] ["k1"]).2.2.2.1,
    (C6_in_clauses {} ["c1"] ["k1"]).2.2.2.2 ["k1", "k2"] ["k0", "k2"]⟩

/-- C8: when the filter request supplies neither `limit` nor `start`
(including the absent-filter case), the compiled product read uses
limit 10 and offset 0. -/
theorem C8_default_pagination (f : ProductFilter) (hl : f.limit = none) (hs : f.start = none) :
    (∃ q, products (some f) = .ok q ∧ q.limit = 10 ∧ q.start = 0) ∧
    (∃ q0, products none = .ok q0 ∧ q0.limit = 10 ∧ q0.start = 0) := by
  constructor
  · exact ⟨⟨buildFilter f, 10, 0, compileSort f⟩, by simp [products, hl, hs], rfl, rfl⟩
  · exact ⟨⟨{}, 10, 0, []⟩, rfl, rfl, rfl⟩

/-- C8 witness: the empty filter request compiles to limit 10,
offset 0. -/
theorem C8_default_pagination_witness :
    (∃ q, products (some ({} : ProductFilter)) = .ok q ∧ q.limit = 10 ∧ q.start = 0) ∧
    (∃ q0, products none = .ok q0 ∧ q0.limit = 10 ∧ q0.start = 0) :=
  C8_default_pagination {} rfl rfl

/-- C9: `minPrice` compiles to an inclusive lower bound and `maxPrice`
to an inclusive upper bound on `price`; either bound may be supplied
alone, and every product matched by the compiled filter satisfies the
supplied bounds. -/
theorem C9_price_bounds (f : ProductFilter) (a b price : Int) :
    (f.minPrice = some a → f.maxPrice = some b →
      (priceClauseHolds (buildFilter f).price price = true ↔ a ≤ price ∧ price ≤ b)) ∧
    (f.minPrice = some a → f.maxPrice = none →
      (priceClauseHolds (buildFilter f).price price = true ↔ a ≤ price)) ∧
    (f.minPrice = none → f.maxPrice = some b →
      (priceClauseHolds (buildFilter f).price price = true ↔ price ≤ b)) ∧
    (∀ p : Product, f.minPrice = some a → f.maxPrice = some b →
      matchesFilter (buildFilter f) p = true → a ≤ p.price ∧ p.price ≤ b) := by
  refine ⟨?_, ?_, ?_, ?_⟩
  · intro hmin hmax
    simp [buildFilter, hmin, hmax, priceClauseHolds]
  · intro hmin hmax
    simp [buildFilter, hmin, hmax, priceClauseHolds]
  · intro hmin hmax
    simp [buildFilter, hmin, hmax, priceClauseHolds]
  · intro p hmin hmax hm
    simp only [matchesFilter, Bool.and_eq_true] at hm
    have hp := hm.2
    simp [buildFilter, hmin, hmax, priceClauseHolds] at hp
    exact hp

/-- C9 witness: with `minPrice = 10`, `maxPrice = 50` the compiled
price clause holds at price 30 and bounds every matched product; with
`minPrice = 10` alone it holds at price 1000; with `maxPrice = 50`
alone it holds at price 0. -/
theorem C9_price_bounds_witness :
    (priceClauseHolds (buildFilter { minPrice := some 10, maxPrice := some 50 }).price 30 = true
      ↔ (10 : Int) ≤ 30 ∧ (30 : Int) ≤ 50) ∧
    (priceClauseHolds (buildFilter { minPrice := some 10 }).price 1000 = true
      ↔ (10 : Int) ≤ 1000) ∧
    (priceClauseHolds (buildFilter { maxPrice := some 50 }).price 0 = true
      ↔ (0 : Int) ≤ 50) ∧
    ((10 : Int) ≤ (⟨"p", "n", "c", "s", "col", 30, [], []⟩ : Product).price ∧
      (⟨"p", "n", "c", "s", "col", 30, [], []⟩ : Product).price ≤ 50) := by
  refine ⟨(C9_price_bounds { minPrice := some 10, maxPrice := some 50 } 10 50 30).1 rfl rfl,
    (C9_price_bounds { minPrice := some 10 } 10 50 1000).2.1 rfl rfl,
    (C9_price_bounds { maxPrice := some 50 } 0 50 0).2.2.1 rfl rfl,
    (C9_price_bounds { minPrice := some 10, maxPrice := some 50 } 10 50 30).2.2.2
      ⟨"p", "n", "c", "s", "col", 30, [], []⟩ rfl rfl (by decide)⟩

/-! ## Claims about the mutations -/

/-- C4: calling any of the six authenticated mutations with no
identity in the context fails with the `UNAUTHENTICATED` GraphQL
error and leaves every document in the store unchanged. -/
theorem C4_unauthenticated_no_write (st : Store) (a : AddressInput) (pid : String)
    (q : JsNum) (rv : String) (sc : Int) :
    addAddress none a st = (st, .error unauthenticatedError) ∧
    addProductToCart none pid q st = (st, .error unauthenticatedError) ∧
    removeProductFromCart none pid st = (st, .error unauthenticatedError) ∧
    addProductToWishlist none pid st = (st, .error unauthenticatedError) ∧
    removeProductFromWishlist none pid st = (st, .error unauthenticatedError) ∧
    addProductReview none rv sc pid st = (st, .error unauthenticatedError) :=
  ⟨rfl, rfl, rfl, rfl, rfl, rfl⟩

/-- C3: the claim says a line item newly inserted into an *existing*
cart gets quantity 1 when no quantity is supplied.  Evaluated at that
input the code pushes the line item with quantity `null`: the
default-to-1 expression runs only in the branch that creates a whole
new cart (contrasted in the second conjunct). -/
theorem C3_code_behavior :
    (addProductToCart (some ⟨"u1"⟩) "p1" .null ⟨[], [⟨"u1", []⟩], [], []⟩).2 =
      .ok ⟨"u1", [⟨"p1", JsNum.null⟩]⟩ ∧
    (addProductToCart (some ⟨"u1"⟩) "p1" .null ⟨[], [], [], []⟩).2 =
      .ok ⟨"u1", [⟨"p1", JsNum.num 1⟩]⟩ := by
  constructor <;> rfl

/-- C1: starting from a user with an empty cart (no cart document, or
a cart document with no line items), adding product `P` with quantity
2 and then again with quantity 3 yields exactly one line item for `P`
with quantity 5 — never a second line item. -/
theorem C1_cart_merge (st : Store) (u : Identity) (P : String)
    (h : st.carts.find? (fun c => c.user_id == u._id) = none ∨
      ∃ c, st.carts.find? (fun c2 => c2.user_id == u._id) = some c ∧ c.products = []) :
    ∃ c2, (addProductToCart (some u) P (.num 3)
        (addProductToCart (some u) P (.num 2) st).1).2 = .ok c2 ∧
      c2.products = [⟨P, .num 5⟩] := by
  rcases h with h | ⟨c, hfind, hempty⟩
  · simp only [addProductToCart, h, JsNum.falsy]
    rw [find?_saveCart st.carts _ u._id rfl]
    simp [incrementFirst, JsNum.add]
  · have hcu : c.user_id = u._id := by
      have := List.find?_some hfind
      simpa using this
    simp only [addProductToCart, hfind, hempty]
    rw [find?_saveCart st.carts _ u._id (by simpa using hcu)]
    simp [incrementFirst, JsNum.add]

/-- C1 witness: a user with no cart document, adding `p1` with
quantity 2 then quantity 3. -/
theorem C1_cart_merge_witness :
    (⟨[], [], [], []⟩ : Store).carts.find? (fun c => c.user_id == "u1") = none ∧
    ∃ c2, (addProductToCart (some ⟨"u1"⟩) "p1" (.num 3)
        (addProductToCart (some ⟨"u1"⟩) "p1" (.num 2) ⟨[], [], [], []⟩).1).2 = .ok c2 ∧
      c2.products = [⟨"p1", .num 5⟩] :=
  ⟨rfl, C1_cart_merge ⟨[], [], [], []⟩ ⟨"u1"⟩ "p1" (.inl rfl)⟩

/-- C7: removing a product that has no line item in the cart of the
user succeeds (no error) and returns that cart unchanged; the store
is untouched. -/
theorem C7_remove_absent_noop (st : Store) (u : Identity) (pid : String) (cart : Cart)
    (hfind : st.carts.find? (fun c => c.user_id == u._id) = some cart)
    (habsent : ∀ x ∈ cart.products, x.productId ≠ pid) :
    removeProductFromCart (some u) pid st = (st, .ok (some cart)) := by
  have hcu : cart.user_id = u._id := by
    have := List.find?_some hfind
    simpa using this
  have hfilter : cart.products.filter (fun x => !(x.productId == pid)) = cart.products := by
    rw [List.filter_eq_self]
    intro a ha
    simp [habsent a ha]
  simp only [removeProductFromCart, hfind, hfilter]
  rw [saveCart_self st.carts cart u._id hcu hfind]

/-- C7 witness: removing `p1` from a cart that only holds `p2`. -/
theorem C7_remove_absent_noop_witness :
    removeProductFromCart (some ⟨"u1"⟩) "p1" ⟨[], [⟨"u1", [⟨"p2", .num 1⟩]⟩], [], []⟩ =
      (⟨[], [⟨"u1", [⟨"p2", .num 1⟩]⟩], [], []⟩, .ok (some ⟨"u1", [⟨"p2", .num 1⟩]⟩)) :=
  C7_remove_absent_noop _ ⟨"u1"⟩ "p1" ⟨"u1", [⟨"p2", .num 1⟩]⟩ (by decide) (by decide)

/-- C10: `addProductToWishlist` appends the product id with no
membership check, so two calls with the same id leave the wishlist
with two more occurrences of that id than before. -/
theorem C10_wishlist_duplicate_append (st : Store) (u : Identity) (pid : String) :
    ∃ w, (addProductToWishlist (some u) pid (addProductToWishlist (some u) pid st).1).2 =
        .ok w ∧
      w.products.count pid =
        (match st.wishlists.find? (fun x => x.user_id == u._id) with
          | some w0 => w0.products.count pid
          | none => 0) + 2 := by
  cases hfind : st.wishlists.find? (fun x => x.user_id == u._id) with
  | none =>
    simp only [addProductToWishlist, hfind]
    rw [find?_saveWishlist st.wishlists _ u._id rfl]
    refine ⟨_, rfl, ?_⟩
    simp [List.count_cons]
  | some w0 =>
    have hw0 : w0.user_id = u._id := by
      have := List.find?_some hfind
      simpa using this
    simp only [addProductToWishlist, hfind]
    rw [find?_saveWishlist st.wishlists _ u._id (by simpa using hw0)]
    refine ⟨_, rfl, ?_⟩
    simp [List.count_append, List.count_cons]

/-- C5: calling `addProductReview` twice for the same (user, product)
pair — in a store satisfying the at-most-one-review invariant for
that pair — leaves exactly one review document for the pair, carrying
the review text and score supplied by the second call. -/
theorem C5_review_upsert (st : Store) (u : Identity) (P rv1 rv2 : String) (s1 s2 : Int)
    (hinv : st.reviews.countP (matchUP u._id P) ≤ 1) (hne : s1 ≠ s2) :
    ((addProductReview (some u) rv2 s2 P
        (addProductReview (some u) rv1 s1 P st).1).1).reviews.countP (matchUP u._id P) = 1 ∧
    ((addProductReview (some u) rv2 s2 P
        (addProductReview (some u) rv1 s1 P st).1).1).reviews.find? (matchUP u._id P) =
      some ⟨u._id, P, rv2, s2⟩ := by
  cases hfind : st.reviews.find? (matchUP u._id P) with
  | none =>
    have hcount : st.reviews.countP (matchUP u._id P) = 0 := by
      rw [List.countP_eq_zero]
      exact List.find?_eq_none.mp hfind
    simp only [addProductReview, hfind]
    have hfind1 : (st.reviews ++ [(⟨u._id, P, rv1, s1⟩ : Review)]).find? (matchUP u._id P) =
        some ⟨u._id, P, rv1, s1⟩ := by
      rw [List.find?_append, hfind]
      simp [matchUP]
    rw [hfind1]
    constructor
    · rw [countP_saveReview _ _ u._id P rfl rfl, List.countP_append, hcount]
      simp [matchUP]
    · exact find?_saveReview _ _ u._id P rfl rfl
  | some r0 =>
    have hp := List.find?_some hfind
    have hmem := List.mem_of_find?_eq_some hfind
    obtain ⟨ru, rp, rr, rs⟩ := r0
    have hup : ru = u._id ∧ rp = P := by
      simpa [matchUP] using hp
    rw [hup.1, hup.2] at hfind
    have hcount1 : st.reviews.countP (matchUP u._id P) = 1 := by
      have hpos : 0 < st.reviews.countP (matchUP u._id P) :=
        List.countP_pos_iff.mpr ⟨_, hmem, hp⟩
      omega
    simp only [addProductReview, hfind]
    have hfind1 : (saveReview st.reviews ⟨u._id, P, rv1, s1⟩).find? (matchUP u._id P) =
        some ⟨u._id, P, rv1, s1⟩ := find?_saveReview _ _ u._id P rfl rfl
    rw [hfind1]
    constructor
    · rw [countP_saveReview _ _ u._id P rfl rfl, countP_saveReview _ _ u._id P rfl rfl,
        hcount1]
      simp
    · exact find?_saveReview _ _ u._id P rfl rfl

/-- C5 witness: user `u1` reviews `p1` twice (scores 4 then 2) in a
store with no review for the pair. -/
theorem C5_review_upsert_witness :
    ((⟨[], [], [], []⟩ : Store).reviews.countP (matchUP "u1" "p1") ≤ 1 ∧ (4 : Int) ≠ 2) ∧
    ((addProductReview (some ⟨"u1"⟩) "b" 2 "p1"
        (addProductReview (some ⟨"u1"⟩) "a" 4 "p1" ⟨[], [], [], []⟩).1).1).reviews.countP
      (matchUP "u1" "p1") = 1 ∧
    ((addProductReview (some ⟨"u1"⟩) "b" 2 "p1"
        (addProductReview (some ⟨"u1"⟩) "a" 4 "p1" ⟨[], [], [], []⟩).1).1).reviews.find?
      (matchUP "u1" "p1") = some ⟨"u1", "p1", "b", 2⟩ :=
  ⟨⟨by decide, by decide⟩,
    C5_review_upsert ⟨[], [], [], []⟩ ⟨"u1"⟩ "p1" "a" "b" 4 2 (by decide) (by decide)⟩

end Overray
